import Mathlib

/-!
Verification of `calgroup_builder` (src/calgroup_builder/__init__.py).

The development shallowly embeds the pieces of the module that the spec talks
about: the bounded fetch wrapper (`fetch`, lines 51-63), the paginated fetch
loop (`fetch_paginated`, lines 65-99), the per-user lookup (`get_user_info`,
lines 106-119), the Grouper request construction and response handling
(`add_members`, lines 121-158 and `boolean_string`, lines 21-22), the
membership-derivation loop (`handle_user`, lines 160-187), and the scheduler
(`GroupBuilder.start`, lines 343-365).

Python values flowing through JSON are embedded as `PyVal`; dictionaries are
association lists; Python exceptions are embedded as `Except PyErr`.
-/

namespace CalgroupBuilder

/-- A JSON-decoded Python value, as produced by `json.loads` / `r.json()`.
`none` embeds Python `None` (JSON `null`). -/
inductive PyVal where
  | none
  | bool (b : Bool)
  | int (n : Int)
  | str (s : String)
  | list (xs : List PyVal)
  | dict (kvs : List (String × PyVal))
deriving Repr

/-- A Python dictionary with string keys: an association list, first match
wins on lookup (our dict literals never repeat a key). -/
abbrev PyDict := List (String × PyVal)

/-- Python exceptions that the embedded code can raise. `exc` embeds a plain
`Exception` carrying a payload (as in `raise Exception(meta)`), `httpError`
a tornado fetch failure (timeout or transport error), `parseError` a
`json.loads` failure. -/
inductive PyErr where
  | keyError (k : String)
  | typeError (msg : String)
  | exc (payload : PyVal)
  | httpError (msg : String)
  | parseError (msg : String)
deriving Repr

/-- Python truthiness (`if x:`): `None`, `False`, `0`, `""`, `[]` and `{}`
are falsy, everything else truthy. -/
def pyTruthy : PyVal → Bool
  | .none => false
  | .bool b => b
  | .int n => n != 0
  | .str s => s != ""
  | .list xs => !xs.isEmpty
  | .dict kvs => !kvs.isEmpty

/-- Python subscription `v[k]` with a string key: a `KeyError` when the key is
absent from a dict, a `TypeError` when the value is not a dict. -/
def pyGetItem (v : PyVal) (k : String) : Except PyErr PyVal :=
  match v with
  | .dict kvs =>
      match kvs.lookup k with
      | some w => .ok w
      | Option.none => .error (.keyError k)
  | _ => .error (.typeError "object is not subscriptable")

/-- Python key-containment `k in v` on a dict. -/
def pyContains (v : PyVal) (k : String) : Bool :=
  match v with
  | .dict kvs => (kvs.lookup k).isSome
  | _ => false

/-- `str(v)` as used inside an f-string, for the value kinds that can appear
as a user `name` in this module. -/
def pyStrOf : PyVal → String
  | .str s => s
  | .int n => toString n
  | .bool b => if b then "True" else "False"
  | .none => "None"
  | _ => "<object>"

/-- `for item in v` requires an iterable; this module only ever iterates
JSON lists. -/
def asPyList (v : PyVal) : Except PyErr (List PyVal) :=
  match v with
  | .list xs => .ok xs
  | _ => .error (.typeError "object is not iterable")

/-- A string value, where the code uses the value as a URL. -/
def asPyStr (v : PyVal) : Except PyErr String :=
  match v with
  | .str s => .ok s
  | _ => .error (.typeError "expected a string")

/-! ### `boolean_string` and the member classification of `add_members`
(lines 21-22, 132-141). -/

/-- `boolean_string(b)`: `{True: "T", False: "F"}[b]` (lines 21-22). -/
def boolean_string (b : Bool) : String :=
  if b then "T" else "F"

/-- A member identifier as it reaches the `for member in members` loop of
`add_members`: a JSON scalar, either a Python `int` or a `str` (the derived
`login_id` values and any literal members are of these two types; the loop
branches on `type(member) == int` versus string methods). -/
inductive Member where
  | int (n : Int)
  | str (s : String)
deriving Repr, DecidableEq

/-- Python `str.isalpha()`: true iff the string is nonempty and every
character is alphabetic (letters only; digits make it false). `Char.isAlpha`
covers the ASCII letters, which is what the identifiers here use. -/
def pyIsAlpha (s : String) : Bool :=
  s.data.length != 0 && s.data.all Char.isAlpha

/-- The subject-lookup key chosen for one member (lines 132-138):
`"subjectId"` when `type(member) == int or member.isalpha()`, otherwise
`"subjectIdentifier"`. -/
def member_key (m : Member) : String :=
  match m with
  | .int _ => "subjectId"
  | .str s => if pyIsAlpha s then "subjectId" else "subjectIdentifier"

/-- The classification the claim's spec sentence describes: `subjectId` iff
the identifier is purely alphanumeric (letters and digits only; an `int` is
numeric). Stated from the spec's words, to compare with `member_key`. -/
def specAlphanumeric (m : Member) : Bool :=
  match m with
  | .int _ => true
  | .str s => s.data.length != 0 && s.data.all Char.isAlphanum

/-- The condition the code actually branches on at line 133:
`type(member) == int or member.isalpha()`. -/
def specIntOrAlpha (m : Member) : Bool :=
  match m with
  | .int _ => true
  | .str s => pyIsAlpha s

/-- The request body built by `add_members` (lines 126-141): the
`WsRestAddMemberRequest` object with its `replaceAllExisting` string and its
`subjectLookups` list of single-key objects. -/
structure AddMemberRequest where
  replaceAllExisting : String
  subjectLookups : List (String × Member)
deriving Repr, DecidableEq

/-- The `for member in members` loop of lines 132-141: starting from the
empty `subjectLookups` list, append `{member_key: member}` for each member
in order. -/
def subject_lookups (members : List Member) : List (String × Member) :=
  members.foldl (fun acc m => acc ++ [(member_key m, m)]) []

/-- The `data` value of `add_members` (lines 126-141) after the loop ran. -/
def add_members_request (replace_existing : Bool) (members : List Member) :
    AddMemberRequest :=
  { replaceAllExisting := boolean_string replace_existing,
    subjectLookups := subject_lookups members }

/-! ### `add_members` response handling (lines 148-158).

After `out = r.json()` the code runs

```
try:
    if problem_key in out:
        logger.warning(...)
        meta = out[problem_key]["resultMetadata"]
        raise Exception(meta)
    results_key = "WsAddMemberResults"
except Exception as e:
    logger.error(f" error: {e}")
return out
```

The `raise` sits inside the `try` whose own `except Exception` catches it,
so no exception ever leaves this block: the function returns `out` on every
path. -/

/-- The body of the `try:` block of lines 150-155 on the parsed response
`out`: `.error e` means an exception `e` was raised inside the block
(the explicit `raise Exception(meta)`, or a `KeyError` from
`out[problem_key]["resultMetadata"]`). -/
def add_members_tryBody (out : PyVal) : Except PyErr Unit :=
  if pyContains out "WsRestResultProblem" then
    match pyGetItem out "WsRestResultProblem" with
    | .ok v =>
        match pyGetItem v "resultMetadata" with
        | .ok meta => .error (.exc meta)
        | .error e => .error e
    | .error e => .error e
  else
    .ok ()

/-- Lines 148-158 of `add_members` as seen by its caller: the value
returned, paired with the exception the `except` block caught and logged
(if any). The `except Exception as e` handler swallows every exception from
the `try` body and execution falls through to `return out`, so the first
component is always `out` and nothing propagates to the caller. -/
def add_members_respond (out : PyVal) : PyVal × Option PyErr :=
  match add_members_tryBody out with
  | .ok _ => (out, Option.none)
  | .error e => (out, some e)

/-! ### The bounded fetch wrapper (lines 51-63).

```
if concurrency:
    semaphore = asyncio.Semaphore(concurrency)
    async def fetch(req):
        await semaphore.acquire()
        try:
            return await client.fetch(req)
        finally:
            semaphore.release()
else:
    fetch = client.fetch
```
-/

/-- How one `client.fetch(req)` call can terminate. -/
inductive FetchOutcome where
  | success
  | timeout
  | transportError
deriving Repr, DecidableEq

/-- An operation on the admission semaphore. -/
inductive GateEvent where
  | acquire
  | release
deriving Repr, DecidableEq

/-- `await client.fetch(req)` as a result value: a timeout or transport
error raises `HTTPError`/`HTTPTimeoutError`. -/
def client_fetch (outcome : FetchOutcome) : Except PyErr PyVal :=
  match outcome with
  | .success => .ok (.dict [("body", .str "response")])
  | .timeout => .error (.httpError "timeout during request")
  | .transportError => .error (.httpError "connection failed")

/-- `try: body finally: fin` over a trace of gate events: the `finally`
block's events run after the body whether the body returned normally or
raised, and the body's result (value or exception) is passed through. -/
def tryFinallyGate (body : List GateEvent × Except PyErr PyVal)
    (fin : List GateEvent) : List GateEvent × Except PyErr PyVal :=
  (body.1 ++ fin, body.2)

/-- The gated `fetch` of lines 54-60, as the sequence of semaphore events it
performs together with its result: `semaphore.acquire()` first, then the
`client.fetch` body wrapped in `try/finally` whose `finally` is
`semaphore.release()`. -/
def fetch_gated (outcome : FetchOutcome) : List GateEvent × Except PyErr PyVal :=
  let afterAcquire : List GateEvent := [GateEvent.acquire]
  let body := tryFinallyGate ([], client_fetch outcome) [GateEvent.release]
  (afterAcquire ++ body.1, body.2)

/-- The definition of `fetch` chosen at lines 51-63: Python truthiness of
the integer `concurrency` selects the semaphore-gated wrapper when
`concurrency != 0` and the bare `client.fetch` when it is `0`. -/
inductive FetchMode where
  | gated (n : Nat)
  | direct
deriving Repr, DecidableEq

/-- Lines 51-63: `if concurrency:` — nonzero builds the semaphore of size
`concurrency` and uses the gated wrapper, zero binds `fetch = client.fetch`
with no admission gate. -/
def fetch_mode (concurrency : Nat) : FetchMode :=
  if concurrency != 0 then .gated concurrency else .direct

/-- State of `asyncio.Semaphore(n)` plus the in-flight bookkeeping:
`available` permits remain, `inFlight` fetches hold a permit. -/
structure SemState where
  available : Nat
  inFlight : Nat
deriving Repr, DecidableEq

/-- `asyncio.Semaphore(n)` freshly constructed: `n` permits, nothing in
flight. -/
def semInit (n : Nat) : SemState :=
  ⟨n, 0⟩

/-- One gate event against the semaphore. `acquire` suspends (here: is not
enabled) while no permit is available; in this module a `release` is only
ever executed by the `finally` of a fetch whose `acquire` succeeded, so it
is only enabled while a fetch is in flight. -/
def semStep (s : SemState) : GateEvent → Option SemState
  | .acquire =>
      if s.available = 0 then Option.none
      else some ⟨s.available - 1, s.inFlight + 1⟩
  | .release =>
      if s.inFlight = 0 then Option.none
      else some ⟨s.available + 1, s.inFlight - 1⟩

/-- Run a sequence of gate events from the fresh semaphore of size `n`;
`none` when some event was not enabled. -/
def semRun (n : Nat) (evs : List GateEvent) : Option SemState :=
  evs.foldlM semStep (semInit n)

/-! ### `fetch_paginated` (lines 65-99).

The generator fetches the seed URL, then loops: parse the body as JSON; a
top-level list is the pre-2.0 shape — yield its elements and stop; otherwise
read `resp_model["items"]` and `resp_model["_pagination"]["next"]`, submit
the fetch of `next_info["url"]` when `next_info` is truthy, and yield the
current page's items. We embed the server as a function from URL to the
parsed response body (a fetch failure or `json.loads` failure is the
function returning `.error`), and the generator as the list of all items it
yields on a completed iteration paired with the number of fetches it
performed. `fuel` bounds the recursion; every theorem supplies enough fuel
for the chain it talks about. -/

/-- The loop body of `fetch_paginated` from one response onward (lines
75-97), returning all remaining yielded items and the number of fetches
performed from this page on (the fetch that produced the current response
included). -/
def fetch_paginated_go (server : String → Except PyErr PyVal) :
    Nat → String → Except PyErr (List PyVal × Nat)
  | 0, _ => .error (.httpError "pagination did not terminate")
  | fuel + 1, url =>
      match server url with
      | .error e => .error e
      | .ok (.list items) =>
          -- handle pre-2.0 response, no pagination
          .ok (items, 1)
      | .ok other =>
          -- paginated response
          match pyGetItem other "items" with
          | .error e => .error e
          | .ok itemsVal =>
              match asPyList itemsVal with
              | .error e => .error e
              | .ok items =>
                  match pyGetItem other "_pagination" with
                  | .error e => .error e
                  | .ok pagination =>
                      match pyGetItem pagination "next" with
                      | .error e => .error e
                      | .ok next_info =>
                          if pyTruthy next_info then
                            match pyGetItem next_info "url" with
                            | .error e => .error e
                            | .ok nextUrlVal =>
                                match asPyStr nextUrlVal with
                                | .error e => .error e
                                | .ok nextUrl =>
                                    match fetch_paginated_go server fuel nextUrl with
                                    | .error e => .error e
                                    | .ok (rest, n) => .ok (items ++ rest, n + 1)
                          else
                            .ok (items, 1)

/-- `fetch_paginated(req)` (lines 65-99): fetch the seed URL and run the
loop. -/
def fetch_paginated (server : String → Except PyErr PyVal) (fuel : Nat)
    (url : String) : Except PyErr (List PyVal × Nat) :=
  fetch_paginated_go server fuel url

/-- The `_pagination.next` field of a paginated response: `{"url": ...}` when
another page follows, JSON `null` when not. -/
def mkNextVal : Option String → PyVal
  | some u => PyVal.dict [("url", PyVal.str u)]
  | Option.none => PyVal.none

/-- A paginated response body in the JupyterHub 2.0 shape:
`{"items": [...], "_pagination": {"next": {"url": ...} | null}}`. -/
def mkPage (items : List PyVal) (next : Option String) : PyVal :=
  PyVal.dict
    [("items", PyVal.list items),
     ("_pagination", PyVal.dict [("next", mkNextVal next)])]

/-! ### `get_user_info` (lines 106-119).

```
async def get_user_info(url, user):
    user_url = f"{url}/users/{user["name"]}"
    req = HTTPRequest(url=user_url, headers=auth_header)
    try:
        response = await fetch(req)
        user_data = json.loads(response.body.decode("utf-8"))
        return {"status": "success", "user_data": user_data}
    except Exception as e:
        logger.error(...)
        return {"status": "error", "message": f"Unexpected error: {e}"}
```

The f-string subscripts `user["name"]` before the `try` begins, so a record
without a `"name"` key raises `KeyError` out of the function; only the fetch
and the JSON parse are guarded. The combined `fetch` + `json.loads` step is
embedded as a function from the request URL to the parsed body or the
exception it raised. -/

/-- `get_user_info(url, user)` (lines 106-119): `fetchParse` is the
fetch-and-parse of lines 114-115. -/
def get_user_info (fetchParse : String → Except PyErr PyVal) (url : String)
    (user : PyDict) : Except PyErr PyVal :=
  match pyGetItem (PyVal.dict user) "name" with
  | .error e => .error e
  | .ok nameVal =>
      let user_url := url ++ "/users/" ++ pyStrOf nameVal
      match fetchParse user_url with
      | .ok user_data =>
          .ok (.dict [("status", .str "success"), ("user_data", user_data)])
      | .error e =>
          .ok (.dict [("status", .str "error"),
                      ("message", .str ("Unexpected error: " ++ reprStr e))])

/-! ### The derivation loop of `handle_user` (lines 160-187).

```
members = []
for user in users_to_process:
    user_is_admin = user["admin"]
    if not user_is_admin:
        user_data = await get_user_info(user)
        if "user_data" in user_data:
            login_id = user_data["user_data"]["auth_state"]["oauth_user"]["login_id"]
            members.append(login_id)
```

The loop body is not guarded by any `try`, so every exception it raises
escapes `handle_user` and aborts the cycle. Line 170 calls
`get_user_info(user)` with a single positional argument although
`get_user_info` is defined with two parameters `(url, user)` (line 106):
Python raises `TypeError` at that call, before the lookup runs. -/

/-- The `members` list computed by the loop of lines 166-175, exactly as the
source runs it: an admin record is dropped; for a non-admin record the
single-argument call `get_user_info(user)` raises `TypeError`, which
nothing catches, so the whole derivation errors out. -/
def handle_user_members : List PyDict → Except PyErr (List PyVal)
  | [] => .ok []
  | user :: rest => do
      let user_is_admin ← pyGetItem (.dict user) "admin"
      if pyTruthy user_is_admin then
        handle_user_members rest
      else
        .error (.typeError
          "get_user_info() missing 1 required positional argument: user")

/-- The same loop with line 170's call repaired to pass both arguments,
`get_user_info(url, user)`, which is the only reading under which the loop
can run at all. The nested extraction
`user_data["user_data"]["auth_state"]["oauth_user"]["login_id"]` of lines
172-174 stays unguarded: a missing or null nested field raises
`KeyError`/`TypeError` out of the loop. -/
def handle_user_membersFixedCall (fetchParse : String → Except PyErr PyVal)
    (url : String) : List PyDict → Except PyErr (List PyVal)
  | [] => .ok []
  | user :: rest => do
      let user_is_admin ← pyGetItem (.dict user) "admin"
      if pyTruthy user_is_admin then
        handle_user_membersFixedCall fetchParse url rest
      else do
        let user_data ← get_user_info fetchParse url user
        if pyContains user_data "user_data" then do
          let ud ← pyGetItem user_data "user_data"
          let auth_state ← pyGetItem ud "auth_state"
          let oauth_user ← pyGetItem auth_state "oauth_user"
          let login_id ← pyGetItem oauth_user "login_id"
          let members ← handle_user_membersFixedCall fetchParse url rest
          pure (login_id :: members)
        else
          handle_user_membersFixedCall fetchParse url rest

/-! ### The scheduler (`GroupBuilder.start`, lines 343-365).

Modelled from the spec: the timer machinery (`IOLoop.add_callback`,
`PeriodicCallback`) is tornado's, outside this repository's sources. The
code schedules the first sync immediately (`loop.add_callback(sync_groups)`,
with the comment "schedule first sync immediately because PeriodicCallback
doesn't start until the end of the first interval") and then starts
`PeriodicCallback(sync_groups, 1e3 * sync_every)`; per spec §4.5 the timer
fires at the fixed interval whether or not a cycle is still running ("the
source behavior allows overlap"). So cycle `k` starts at time
`k * interval` (cycle 0 at process start) and, with cycles of duration `d`,
occupies the half-open time span `[k*interval, k*interval + d)`. -/

/-- Start time of the `k`-th reconciliation cycle: the immediate first sync
is cycle `0` at time `0`, the `PeriodicCallback` fires cycles `1, 2, ...`
at each interval tick. -/
def cycle_start (interval k : Nat) : Nat :=
  k * interval

/-- Whether cycles `i` and `j`, each of duration `d`, overlap in time:
their half-open spans `[start, start + d)` intersect. -/
def cycles_overlap (interval d i j : Nat) : Bool :=
  max (cycle_start interval i) (cycle_start interval j) <
    min (cycle_start interval i + d) (cycle_start interval j + d)

/-! ### Concrete upstream fixtures used by the witnesses. -/

/-- A hub whose user-list endpoint answers with a plain (pre-2.0) JSON
list. -/
def plainListServer : String → Except PyErr PyVal := fun u =>
  if u = "hub/users" then Except.ok (PyVal.list [PyVal.str "carol"])
  else Except.error (PyErr.httpError "404")

/-- URLs of a two-page chain. -/
def twoPageUrls : Nat → String := fun i =>
  if i = 0 then "u0" else "u1"

/-- A hub whose user-list endpoint is paginated over two pages: page `u0`
holds one item and points at `u1`, page `u1` holds one item and has
`next = null`. -/
def twoPageServer : String → Except PyErr PyVal := fun u =>
  if u = "u0" then Except.ok (mkPage [PyVal.str "a"] (some "u1"))
  else if u = "u1" then Except.ok (mkPage [PyVal.str "b"] Option.none)
  else Except.error (PyErr.httpError "404")

/-! ## Helper lemmas -/

/-- The append-accumulator loop of `subject_lookups` builds the same list as
a map over the members. -/
theorem subject_lookups_eq_map (members : List Member) :
    subject_lookups members = members.map (fun m => (member_key m, m)) := by
  have h : ∀ (ms : List Member) (acc : List (String × Member)),
      ms.foldl (fun acc m => acc ++ [(member_key m, m)]) acc
        = acc ++ ms.map (fun m => (member_key m, m)) := by
    intro ms
    induction ms with
    | nil => intro acc; simp
    | cons m ms ih => intro acc; simp [List.foldl, ih]
  simpa [subject_lookups] using h members []

/-- One enabled semaphore step keeps `available + inFlight` constant. -/
theorem semStep_sum {s s' : SemState} {e : GateEvent}
    (h : semStep s e = some s') :
    s'.available + s'.inFlight = s.available + s.inFlight := by
  cases e with
  | acquire =>
      simp only [semStep] at h
      by_cases hc : s.available = 0
      · rw [if_pos hc] at h
        exact absurd h (by simp)
      · rw [if_neg hc] at h
        injection h with h
        subst h
        simp only []
        omega
  | release =>
      simp only [semStep] at h
      by_cases hc : s.inFlight = 0
      · rw [if_pos hc] at h
        exact absurd h (by simp)
      · rw [if_neg hc] at h
        injection h with h
        subst h
        simp only []
        omega

/-- Any enabled run of gate events keeps `available + inFlight` constant. -/
theorem semRun_sum :
    ∀ (evs : List GateEvent) (s0 s : SemState),
      evs.foldlM semStep s0 = some s →
      s.available + s.inFlight = s0.available + s0.inFlight := by
  intro evs
  induction evs with
  | nil =>
      intro s0 s h
      simp only [List.foldlM, pure] at h
      injection h with h
      rw [h]
  | cons e evs ih =>
      intro s0 s h
      rw [List.foldlM_cons] at h
      cases h1 : semStep s0 e with
      | none => rw [h1] at h; exact absurd h (by simp)
      | some s1 =>
          rw [h1] at h
          have h2 : evs.foldlM semStep s1 = some s := h
          rw [ih s1 s h2, semStep_sum h1]

/-- Reading the `items` field of a paginated page body. -/
theorem pyGetItem_mkPage_items (items : List PyVal) (next : Option String) :
    pyGetItem (mkPage items next) "items" = .ok (.list items) := rfl

/-- Reading the `_pagination` field of a paginated page body. -/
theorem pyGetItem_mkPage_pagination (items : List PyVal) (next : Option String) :
    pyGetItem (mkPage items next) "_pagination"
      = .ok (.dict [("next", mkNextVal next)]) := rfl

/-- One loop iteration of `fetch_paginated_go` on a well-shaped last page
(`next = null`): yield the page's items and stop, with this page's fetch as
the only one counted. -/
theorem fetch_paginated_go_last (server : String → Except PyErr PyVal)
    (fuel : Nat) (url : String) (items : List PyVal)
    (h : server url = Except.ok (mkPage items Option.none)) :
    fetch_paginated_go server (fuel + 1) url = .ok (items, 1) := by
  simp only [fetch_paginated_go, h]
  rfl

/-- One loop iteration of `fetch_paginated_go` on a well-shaped page with a
next URL: recurse into the next page, prepend this page's items and count
one more fetch. -/
theorem fetch_paginated_go_step (server : String → Except PyErr PyVal)
    (fuel : Nat) (url : String) (items : List PyVal) (u : String)
    (h : server url = Except.ok (mkPage items (some u))) :
    fetch_paginated_go server (fuel + 1) url =
      match fetch_paginated_go server fuel u with
      | .error e => .error e
      | .ok (rest, n) => .ok (items ++ rest, n + 1) := by
  simp only [fetch_paginated_go, h]
  rfl

/-! ## Claim theorems -/

/-- Claim C1 (code evidence): on the directory response
`{"WsRestResultProblem": {"resultMetadata": {"resultCode": "PROBLEM"}}}`,
`add_members` raises `Exception(meta)` inside its own `try`, whose `except`
catches and merely logs it, and the function then returns the parsed body
normally — byte-for-byte the same kind of normal return a success response
gets (second conjunct), not a reconciliation-failure outcome. -/
theorem add_members_problem_is_swallowed :
    add_members_respond (PyVal.dict [("WsRestResultProblem",
        PyVal.dict [("resultMetadata",
          PyVal.dict [("resultCode", PyVal.str "PROBLEM")])])])
      = (PyVal.dict [("WsRestResultProblem",
          PyVal.dict [("resultMetadata",
            PyVal.dict [("resultCode", PyVal.str "PROBLEM")])])],
         some (PyErr.exc (PyVal.dict [("resultCode", PyVal.str "PROBLEM")])))
    ∧ add_members_respond (PyVal.dict [("WsAddMemberResults",
        PyVal.dict [("resultCode", PyVal.str "SUCCESS")])])
      = (PyVal.dict [("WsAddMemberResults",
          PyVal.dict [("resultCode", PyVal.str "SUCCESS")])], Option.none) :=
  ⟨rfl, rfl⟩

/-- Claim C2 (code evidence): on two non-admin records, the derivation loop
of `handle_user` errors out on the very first record — the single-argument
call `get_user_info(user)` raises `TypeError` — so the second record is
never derived and the whole cycle aborts, instead of skipping just the bad
record. The second conjunct shows the loop with the call arity repaired:
a record whose fetched `user_data` has no `auth_state` raises an uncaught
`KeyError`, again aborting the cycle rather than being skipped. -/
theorem handle_user_does_not_skip_bad_record :
    handle_user_members
      [[("name", PyVal.str "u1"), ("admin", PyVal.bool false)],
       [("name", PyVal.str "u2"), ("admin", PyVal.bool false)]]
      = Except.error (PyErr.typeError
          "get_user_info() missing 1 required positional argument: user")
    ∧ handle_user_membersFixedCall
        (fun _ => Except.ok (PyVal.dict [("name", PyVal.str "u1")]))
        "hub"
        [[("name", PyVal.str "u1"), ("admin", PyVal.bool false)],
         [("name", PyVal.str "u2"), ("admin", PyVal.bool false)]]
      = Except.error (PyErr.keyError "auth_state") :=
  ⟨rfl, rfl⟩

/-- Claim C3 (counterexample): the identifier `"abc123"` is purely
alphanumeric, yet `add_members` classifies it as `subjectIdentifier`
(`"abc123".isalpha()` is false), so the claimed
subjectId-iff-purely-alphanumeric rule does not hold of the code. -/
theorem member_key_not_alphanumeric_rule :
    ¬ (∀ m : Member, member_key m = "subjectId" ↔ specAlphanumeric m = true) :=
  fun h => absurd ((h (Member.str "abc123")).mpr (by decide)) (by decide)

/-- Claim C3 (amended): the subject-lookup key is `subjectId` exactly when
the member is a Python `int` or a nonempty purely-alphabetic string
(`str.isalpha`), and `subjectIdentifier` in every other case. -/
theorem member_key_int_or_alpha (m : Member) :
    (member_key m = "subjectId" ↔ specIntOrAlpha m = true)
    ∧ (member_key m = "subjectIdentifier" ↔ specIntOrAlpha m = false) := by
  cases m with
  | int n => simp [member_key, specIntOrAlpha]
  | str s =>
      by_cases hs : pyIsAlpha s
      · simp [member_key, specIntOrAlpha, hs]
      · simp [member_key, specIntOrAlpha, hs]

/-- Claim C8: in replace mode (`replace_existing = True`) the request body
sets `replaceAllExisting` to the string `"T"`, and `subjectLookups` holds
exactly one lookup per member, in list order, each tagged with the key
`member_key` chose for it. -/
theorem add_members_replace_request (members : List Member) :
    (add_members_request true members).replaceAllExisting = "T"
    ∧ (add_members_request true members).subjectLookups
        = members.map (fun m => (member_key m, m))
    ∧ (add_members_request true members).subjectLookups.length
        = members.length := by
  refine ⟨rfl, subject_lookups_eq_map members, ?_⟩
  rw [show (add_members_request true members).subjectLookups
        = subject_lookups members from rfl, subject_lookups_eq_map members]
  exact List.length_map members _

/-- Claim C10 (counterexample): on a user record without a `"name"` key the
URL construction of `get_user_info` — which runs before its `try` block —
raises `KeyError`, so the function does propagate an exception instead of
returning a status dict. -/
theorem get_user_info_raises_without_name :
    get_user_info (fun _ => Except.ok PyVal.none) "hub" []
      = Except.error (PyErr.keyError "name") := rfl

/-- Claim C10 (amended): for every user record that does carry a `"name"`
key, `get_user_info` never propagates an exception: it returns a dict whose
`status` is `"success"` (fetch and parse succeeded) or `"error"` (the fetch
or the JSON parse raised and the `except` built the error dict). -/
theorem get_user_info_no_raise_with_name
    (fetchParse : String → Except PyErr PyVal) (url : String) (user : PyDict)
    (h : pyContains (PyVal.dict user) "name" = true) :
    ∃ v, get_user_info fetchParse url user = Except.ok v
      ∧ (pyGetItem v "status" = Except.ok (PyVal.str "success")
         ∨ pyGetItem v "status" = Except.ok (PyVal.str "error")) := by
  simp only [pyContains, Option.isSome_iff_exists] at h
  obtain ⟨nameVal, hn⟩ := h
  unfold get_user_info
  simp only [pyGetItem, hn]
  cases fetchParse (url ++ "/users/" ++ pyStrOf nameVal) with
  | ok d => exact ⟨_, rfl, Or.inl rfl⟩
  | error e => exact ⟨_, rfl, Or.inr rfl⟩

/-- Claim C4: when the upstream answers the seed URL with a plain JSON list,
`fetch_paginated` yields exactly that list's elements in order and performs
exactly one fetch — the list branch of line 80 stops without consulting any
pagination metadata. -/
theorem fetch_paginated_plain_list (server : String → Except PyErr PyVal)
    (url : String) (xs : List PyVal) (fuel : Nat)
    (h : server url = Except.ok (PyVal.list xs)) :
    fetch_paginated server (fuel + 1) url = Except.ok (xs, 1) := by
  simp only [fetch_paginated, fetch_paginated_go, h]

/-- Witness for `fetch_paginated_plain_list`: a concrete non-paginated
upstream with one record. -/
theorem fetch_paginated_plain_list_witness :
    plainListServer "hub/users" = Except.ok (PyVal.list [PyVal.str "carol"])
    ∧ fetch_paginated plainListServer 1 "hub/users"
        = Except.ok ([PyVal.str "carol"], 1) :=
  ⟨rfl, fetch_paginated_plain_list plainListServer "hub/users"
    [PyVal.str "carol"] 0 rfl⟩

/-- Claim C5: on a chain of `k` pages where page `i` holds the items
`pages[i]` and only the last page has `_pagination.next = null`,
`fetch_paginated` performs exactly `k = pages.length` fetches and yields
`pages.flatten` — every item, in page order and within each page in item
order. -/
theorem fetch_paginated_chain (pages : List (List PyVal)) (urls : Nat → String)
    (server : String → Except PyErr PyVal) (fuel : Nat)
    (hne : pages ≠ [])
    (hfuel : pages.length ≤ fuel)
    (hserver : ∀ i its, pages[i]? = some its →
      server (urls i) = Except.ok (mkPage its
        (if i + 1 < pages.length then some (urls (i + 1)) else Option.none))) :
    fetch_paginated server fuel (urls 0)
      = Except.ok (pages.flatten, pages.length) := by
  revert hne hfuel hserver
  induction pages generalizing urls fuel with
  | nil =>
      intro hne _ _
      exact absurd rfl hne
  | cons p rest ih =>
      intro _ hfuel hserver
      obtain ⟨f, rfl⟩ : ∃ f, fuel = f + 1 := by
        cases fuel with
        | zero => simp at hfuel
        | succ f => exact ⟨f, rfl⟩
      have h0 := hserver 0 p (by simp)
      cases rest with
      | nil =>
          have h0' : server (urls 0) = Except.ok (mkPage p Option.none) := by
            simpa using h0
          have hstep := fetch_paginated_go_last server f (urls 0) p h0'
          simpa [fetch_paginated] using hstep
      | cons q qs =>
          have h0' : server (urls 0)
              = Except.ok (mkPage p (some (urls 1))) := by
            simpa using h0
          have hs' : ∀ i its, (q :: qs)[i]? = some its →
              server (urls (i + 1)) = Except.ok (mkPage its
                (if i + 1 < (q :: qs).length then some (urls (i + 2))
                 else Option.none)) := by
            intro i its hit
            have h1 := hserver (i + 1) its (by simpa using hit)
            simpa [Nat.succ_lt_succ_iff] using h1
          have hrec : fetch_paginated server f (urls 1)
              = Except.ok ((q :: qs).flatten, (q :: qs).length) :=
            ih (fun i => urls (i + 1)) f (by simp)
              (by simp only [List.length_cons] at hfuel ⊢; omega) hs'
          have hstep := fetch_paginated_go_step server f (urls 0) p
            (urls 1) h0'
          have hrec' : fetch_paginated_go server f (urls 1)
              = Except.ok ((q :: qs).flatten, (q :: qs).length) := hrec
          show fetch_paginated_go server (f + 1) (urls 0) = _
          rw [hstep, hrec']
          simp

/-- Witness for `fetch_paginated_chain`: the concrete two-page chain, two
fetches, both items in order. -/
theorem fetch_paginated_chain_witness :
    (([[PyVal.str "a"], [PyVal.str "b"]] : List (List PyVal)) ≠ []
      ∧ ([[PyVal.str "a"], [PyVal.str "b"]] : List (List PyVal)).length ≤ 2
      ∧ (∀ i its,
          ([[PyVal.str "a"], [PyVal.str "b"]] : List (List PyVal))[i]?
              = some its →
          twoPageServer (twoPageUrls i) = Except.ok (mkPage its
            (if i + 1
                < ([[PyVal.str "a"], [PyVal.str "b"]] : List (List PyVal)).length
             then some (twoPageUrls (i + 1)) else Option.none))))
    ∧ fetch_paginated twoPageServer 2 (twoPageUrls 0)
        = Except.ok ([PyVal.str "a", PyVal.str "b"], 2) := by
  have hs : ∀ i its,
      ([[PyVal.str "a"], [PyVal.str "b"]] : List (List PyVal))[i]? = some its →
      twoPageServer (twoPageUrls i) = Except.ok (mkPage its
        (if i + 1
            < ([[PyVal.str "a"], [PyVal.str "b"]] : List (List PyVal)).length
         then some (twoPageUrls (i + 1)) else Option.none)) := by
    intro i its hit
    match i, hit with
    | 0, hit => injection hit with hit; subst hit; rfl
    | 1, hit => injection hit with hit; subst hit; rfl
    | n + 2, hit => simp at hit
  exact ⟨⟨by simp, by simp, hs⟩,
    fetch_paginated_chain [[PyVal.str "a"], [PyVal.str "b"]] twoPageUrls
      twoPageServer 2 (by simp) (by simp) hs⟩

/-- Claim C6: on every outcome of the wrapped `client.fetch` call — normal
return, timeout, transport error — the gated `fetch` performs exactly one
`acquire` followed by exactly one `release` (the `finally` block), and its
event trace leaves the semaphore state unchanged: no execution path leaks a
slot. -/
theorem fetch_gated_releases_once (outcome : FetchOutcome) :
    (fetch_gated outcome).1 = [GateEvent.acquire, GateEvent.release]
    ∧ (fetch_gated outcome).1.count GateEvent.release = 1
    ∧ ∀ a i : Nat,
        (fetch_gated outcome).1.foldlM semStep ⟨a + 1, i⟩
          = some ⟨a + 1, i⟩ := by
  refine ⟨rfl, rfl, ?_⟩
  intro a i
  show ([GateEvent.acquire, GateEvent.release].foldlM semStep ⟨a + 1, i⟩) = _
  simp [List.foldlM, semStep]

/-- Claim C7 (counterexample): with a 1-second interval and cycles lasting
2 seconds, the immediately-started cycle 0 (span `[0, 2)`) and the first
tick's cycle 1 (span `[1, 3)`) execute overlapping in time — the scheduler
does allow two reconciliation cycles to overlap. -/
theorem scheduler_allows_overlap : cycles_overlap 1 2 0 1 = true := by decide

/-- Claim C7 (amended): the scheduler starts cycle 0 immediately at process
start (time 0) and starts one cycle at every interval tick thereafter, but
it does not prevent overlap: whenever a cycle's duration exceeds the
interval, consecutive cycles overlap in time. -/
theorem scheduler_immediate_and_periodic (interval d k : Nat)
    (hd : interval < d) :
    cycle_start interval 0 = 0
    ∧ cycle_start interval (k + 1) = cycle_start interval k + interval
    ∧ cycles_overlap interval d k (k + 1) = true := by
  refine ⟨by simp [cycle_start], by simp [cycle_start, Nat.succ_mul], ?_⟩
  simp only [cycles_overlap, cycle_start, decide_eq_true_eq, Nat.succ_mul,
    Nat.max_def, Nat.min_def]
  split <;> split <;> omega

/-- Witness for `scheduler_immediate_and_periodic` at interval 1, duration
2, cycles 0 and 1. -/
theorem scheduler_immediate_and_periodic_witness :
    1 < 2
    ∧ (cycle_start 1 0 = 0
       ∧ cycle_start 1 (0 + 1) = cycle_start 1 0 + 1
       ∧ cycles_overlap 1 2 0 (0 + 1) = true) :=
  ⟨by decide, scheduler_immediate_and_periodic 1 2 0 (by decide)⟩

/-- Claim C9: for every concurrency limit `N ≥ 1`, any enabled sequence of
acquire/release events against the admission semaphore keeps the number of
in-flight fetches at or below `N`; and for `N = 0` line 63 binds
`fetch = client.fetch`, with no admission gate at all. -/
theorem concurrency_bound_and_unbounded_mode :
    (∀ (n : Nat) (evs : List GateEvent) (s : SemState),
        1 ≤ n → semRun n evs = some s → s.inFlight ≤ n)
    ∧ fetch_mode 0 = FetchMode.direct := by
  refine ⟨?_, rfl⟩
  intro n evs s _ h
  have hsum := semRun_sum evs (semInit n) s h
  simp only [semInit] at hsum
  omega

/-- Witness for `concurrency_bound_and_unbounded_mode` at limit 1 with one
acquired slot. -/
theorem concurrency_bound_witness :
    1 ≤ 1 ∧ semRun 1 [GateEvent.acquire] = some ⟨0, 1⟩
    ∧ (SemState.mk 0 1).inFlight ≤ 1 :=
  ⟨by decide, rfl, concurrency_bound_and_unbounded_mode.1 1
    [GateEvent.acquire] ⟨0, 1⟩ (by decide) rfl⟩

/-- Witness for `get_user_info_no_raise_with_name` at a concrete record with
a `"name"` key and a failing fetch. -/
theorem get_user_info_no_raise_with_name_witness :
    pyContains (PyVal.dict [("name", PyVal.str "alice")]) "name" = true
    ∧ ∃ v, get_user_info (fun _ => Except.error (PyErr.httpError "down"))
          "hub" [("name", PyVal.str "alice")] = Except.ok v
        ∧ (pyGetItem v "status" = Except.ok (PyVal.str "success")
           ∨ pyGetItem v "status" = Except.ok (PyVal.str "error")) :=
  ⟨rfl, get_user_info_no_raise_with_name
    (fun _ => Except.error (PyErr.httpError "down")) "hub"
    [("name", PyVal.str "alice")] rfl⟩

end CalgroupBuilder
